import Mathlib

/-!
A shallow embedding of the request-construction and wire-codec layer of
`forecast-rs` (`src/lib.rs`), together with theorems checking the
specification's claims against it.

Modelling conventions:
  * Rust `f64` coordinate values are modelled as `ℚ` (every finite `f64`
    is an exact rational); Rust's fixed-point formatting `{:.16}` is
    modelled by `fmtFixed16`, which renders the exact rational rounded to
    16 fractional digits with ties to even, matching Rust's `core::fmt`
    behaviour on finite doubles.
  * `reqwest::Url` values are modelled by their serialized `String`.
    `Url::parse` leaves the path of the URLs produced by `build_url`
    unchanged when the api key consists of URL-safe characters, so
    `build_url` is embedded as the string concatenation the Rust code
    formats, followed by the query string that `query_pairs_mut` appends.
  * `url::form_urlencoded::Serializer::append_pair` percent-encodes each
    name and value per the WHATWG application/x-www-form-urlencoded
    serializer: bytes `*`, `-`, `.`, `_`, ASCII alphanumerics pass
    through, space becomes `+`, every other byte becomes `%XX` with
    uppercase hex.  This is `formUrlencode` below (stated at the `Char`
    level; every string the request layer feeds to it is ASCII).
  * serde's derived `Serialize`/`Deserialize` for the wire enums
    (`#[serde(rename = "...")]` attributes) is embedded as an explicit
    token function `encode` and a token-table lookup `decode`; the Rust
    code's `serde_json::to_string(e).trim_matches('"')` is exactly
    `encode`.  A failed lookup (`none`) models serde's unknown-variant
    (`UnrecognizedToken`-style) error.
  * Rust methods mutating `&mut self` / consuming `self` become pure
    functions returning the updated value; `Vec::append`, which drains
    its argument, returns the pair (updated builder, drained source).
-/

namespace ForecastRs

/-! ### Constants (src/lib.rs lines 100–104) -/

def FORECAST_URL : String := "https://api.pirateweather.net/forecast"
def EXCLUDE : String := "exclude"
def EXTEND : String := "extend"
def LANG : String := "lang"
def UNITS : String := "units"

/-! ### Wire enums and their serde rename tokens (src/lib.rs lines 536–748) -/

/-- Rust enum `ExcludeBlock` (src/lib.rs lines 536–556). -/
inductive ExcludeBlock where
  | Currently
  | Minutely
  | Hourly
  | Daily
  | Alerts
  | Flags
deriving DecidableEq, Repr

/-- The `#[serde(rename = "...")]` token of each `ExcludeBlock` variant. -/
def ExcludeBlock.encode : ExcludeBlock → String
  | .Currently => "currently"
  | .Minutely => "minutely"
  | .Hourly => "hourly"
  | .Daily => "daily"
  | .Alerts => "alerts"
  | .Flags => "flags"

/-- The token table of `ExcludeBlock`, as listed by its serde renames. -/
def ExcludeBlock.table : List (String × ExcludeBlock) :=
  [("currently", .Currently), ("minutely", .Minutely), ("hourly", .Hourly),
   ("daily", .Daily), ("alerts", .Alerts), ("flags", .Flags)]

/-- Derived deserialization of `ExcludeBlock`: token lookup, unknown tokens
fail. -/
def ExcludeBlock.decode (s : String) : Option ExcludeBlock :=
  ExcludeBlock.table.lookup s

/-- Rust enum `ExtendBy` (src/lib.rs lines 560–564). -/
inductive ExtendBy where
  | Hourly
deriving DecidableEq, Repr

def ExtendBy.encode : ExtendBy → String
  | .Hourly => "hourly"

def ExtendBy.table : List (String × ExtendBy) := [("hourly", .Hourly)]

def ExtendBy.decode (s : String) : Option ExtendBy :=
  ExtendBy.table.lookup s

/-- Rust enum `Lang` (src/lib.rs lines 567–690). -/
inductive Lang where
  | Arabic
  | Azerbaijani
  | Belarusian
  | Bulgarian
  | Bosnian
  | Catalan
  | Czech
  | Danish
  | German
  | Greek
  | English
  | Spanish
  | Estonian
  | Finnish
  | French
  | Croatian
  | Hungarian
  | Indonesian
  | Icelandic
  | Italian
  | Japanese
  | Georgian
  | Korean
  | Cornish
  | NorwegianBokmal
  | Dutch
  | Polish
  | Portuguese
  | Romanian
  | Russian
  | Slovak
  | Slovenian
  | Serbian
  | Swedish
  | Tetum
  | Turkish
  | Ukranian
  | IgpayAtinlay
  | SimplifiedChinese
  | TraditionalChinese
deriving DecidableEq, Repr

/-- The `#[serde(rename = "...")]` token of each `Lang` variant.  The
custom `Serialize` impl (src/lib.rs lines 710–716) delegates to the
derived (remote) serializer, so `NorwegianBokmal` always emits `"nb"`. -/
def Lang.encode : Lang → String
  | .Arabic => "ar"
  | .Azerbaijani => "az"
  | .Belarusian => "be"
  | .Bulgarian => "bg"
  | .Bosnian => "bs"
  | .Catalan => "ca"
  | .Czech => "cz"
  | .Danish => "da"
  | .German => "de"
  | .Greek => "el"
  | .English => "en"
  | .Spanish => "es"
  | .Estonian => "et"
  | .Finnish => "fi"
  | .French => "fr"
  | .Croatian => "hr"
  | .Hungarian => "hu"
  | .Indonesian => "id"
  | .Icelandic => "is"
  | .Italian => "it"
  | .Japanese => "ja"
  | .Georgian => "ka"
  | .Korean => "ko"
  | .Cornish => "kw"
  | .NorwegianBokmal => "nb"
  | .Dutch => "nl"
  | .Polish => "pl"
  | .Portuguese => "pt"
  | .Romanian => "ro"
  | .Russian => "ru"
  | .Slovak => "sk"
  | .Slovenian => "sl"
  | .Serbian => "sr"
  | .Swedish => "sv"
  | .Tetum => "tet"
  | .Turkish => "tr"
  | .Ukranian => "uk"
  | .IgpayAtinlay => "x-pig-latin"
  | .SimplifiedChinese => "zh"
  | .TraditionalChinese => "zh-tw"

/-- The token table of `Lang`, as listed by its serde renames. -/
def Lang.table : List (String × Lang) :=
  [("ar", .Arabic), ("az", .Azerbaijani), ("be", .Belarusian),
   ("bg", .Bulgarian), ("bs", .Bosnian), ("ca", .Catalan), ("cz", .Czech),
   ("da", .Danish), ("de", .German), ("el", .Greek), ("en", .English),
   ("es", .Spanish), ("et", .Estonian), ("fi", .Finnish), ("fr", .French),
   ("hr", .Croatian), ("hu", .Hungarian), ("id", .Indonesian),
   ("is", .Icelandic), ("it", .Italian), ("ja", .Japanese),
   ("ka", .Georgian), ("ko", .Korean), ("kw", .Cornish),
   ("nb", .NorwegianBokmal), ("nl", .Dutch), ("pl", .Polish),
   ("pt", .Portuguese), ("ro", .Romanian), ("ru", .Russian),
   ("sk", .Slovak), ("sl", .Slovenian), ("sr", .Serbian),
   ("sv", .Swedish), ("tet", .Tetum), ("tr", .Turkish),
   ("uk", .Ukranian), ("x-pig-latin", .IgpayAtinlay),
   ("zh", .SimplifiedChinese), ("zh-tw", .TraditionalChinese)]

/-- The custom `Deserialize` impl for `Lang` (src/lib.rs lines 694–706):
the token `"no"` is accepted as an alias for `NorwegianBokmal`; every
other token goes through the derived deserializer (the token table). -/
def Lang.decode (s : String) : Option Lang :=
  if s = "no" then some Lang.NorwegianBokmal
  else Lang.table.lookup s

/-- Rust enum `Units` (src/lib.rs lines 718–735). -/
inductive Units where
  | Auto
  | CA
  | UK
  | Imperial
  | SI
deriving DecidableEq, Repr

def Units.encode : Units → String
  | .Auto => "auto"
  | .CA => "ca"
  | .UK => "uk2"
  | .Imperial => "us"
  | .SI => "si"

def Units.table : List (String × Units) :=
  [("auto", .Auto), ("ca", .CA), ("uk2", .UK), ("us", .Imperial),
   ("si", .SI)]

def Units.decode (s : String) : Option Units :=
  Units.table.lookup s

/-- Rust enum `Severity` (src/lib.rs lines 737–748). -/
inductive Severity where
  | Advisory
  | Watch
  | Warning
deriving DecidableEq, Repr

def Severity.encode : Severity → String
  | .Advisory => "advisory"
  | .Watch => "watch"
  | .Warning => "warning"

def Severity.table : List (String × Severity) :=
  [("advisory", .Advisory), ("watch", .Watch), ("warning", .Warning)]

def Severity.decode (s : String) : Option Severity :=
  Severity.table.lookup s

/-! ### Fixed-point float formatting

Rust's `format!("{lat:.16}", ...)` renders a finite `f64` as a fixed-point
decimal with exactly 16 digits after the decimal point: the exact value of
the double is rounded to 16 fractional digits (ties to even), the sign of a
negative value is prepended to the magnitude's rendering.  The double's
exact value is a rational; the model takes that rational directly. -/

/-- The decimal digit character of `d % 10`. -/
def digitChar (d : Nat) : Char := Char.ofNat (48 + d % 10)

/-- Big-endian decimal digits of `n`, with an explicit fuel argument (the
recursion is on `n / 10`; fuel `n + 1` always suffices). -/
def natDigitsAux : Nat → Nat → List Char
  | 0, _ => []
  | fuel + 1, n =>
    if n < 10 then [digitChar n]
    else natDigitsAux fuel (n / 10) ++ [digitChar (n % 10)]

/-- Decimal rendering of a natural number. -/
def natStr (n : Nat) : String := String.mk (natDigitsAux (n + 1) n)

/-- The 16 big-endian decimal digits of `m % 10^16`, zero padded. -/
def fracDigits16 (m : Nat) : List Char :=
  (List.range 16).map fun i => digitChar (m / 10 ^ (15 - i))

/-- Round `num / den` to the nearest integer, ties to even (`den > 0`). -/
def roundHalfEvenNat (num den : Nat) : Nat :=
  let q := num / den
  let r := num % den
  if 2 * r < den then q
  else if den < 2 * r then q + 1
  else if q % 2 = 0 then q else q + 1

/-- Model of Rust's `{:.16}` formatting of a finite `f64` whose exact
value is the rational `x`: the magnitude `|x| = (|num| * 10^16 / den) /
10^16` is rounded to 16 fractional digits (ties to even) and rendered as
`int.frac` with the fraction zero padded to exactly 16 digits; a negative
value gets a leading minus sign. -/
def fmtFixed16 (x : ℚ) : String :=
  let sign := if x.num < 0 then "-" else ""
  let m := roundHalfEvenNat (x.num.natAbs * 10 ^ 16) x.den
  sign ++ natStr (m / 10 ^ 16) ++ "." ++ String.mk (fracDigits16 (m % 10 ^ 16))

/-! ### The form-urlencoded query serializer

`Url::query_pairs_mut` (rust-url) appends `name=value` pairs joined by
`&`, percent-encoding each name and value with the WHATWG
application/x-www-form-urlencoded serializer: the bytes `*`, `-`, `.`,
`_` and ASCII alphanumerics are emitted unchanged, a space becomes `+`,
and every other byte becomes `%XX` with uppercase hexadecimal.  The model
works per `Char`; every string this layer serializes is ASCII, where the
byte-level and char-level serializers agree. -/

/-- Uppercase hexadecimal digit character of `d` (`d < 16`). -/
def hexUpperChar (d : Nat) : Char :=
  if d < 10 then Char.ofNat (48 + d) else Char.ofNat (55 + d)

/-- Percent-escape of one ASCII character, uppercase hex. -/
def percentEscape (c : Char) : String :=
  String.mk ['%', hexUpperChar (c.toNat / 16 % 16), hexUpperChar (c.toNat % 16)]

/-- Characters the form-urlencoded serializer passes through unchanged:
`*`, `-`, `.`, `_` and ASCII alphanumerics. -/
def byteSerializedUnchanged (c : Char) : Bool :=
  c == '*' || c == '-' || c == '.' || c == '_' || c.isAlphanum

/-- The application/x-www-form-urlencoded serialization of one string. -/
def formUrlencode (s : String) : String :=
  String.join (s.data.map fun c =>
    if c == ' ' then "+"
    else if byteSerializedUnchanged c then String.singleton c
    else percentEscape c)

/-- Serialization of a query-pair list: `name=value` pairs joined by `&`,
names and values form-urlencoded. -/
def serializeQueryPairs (pairs : List (String × String)) : String :=
  String.intercalate "&" (pairs.map fun p => formUrlencode p.1 ++ "=" ++ formUrlencode p.2)

/-! ### Request model objects and their builders (src/lib.rs lines 151–475) -/

/-- Rust struct `ForecastRequest` (src/lib.rs lines 153–188).  The
`reqwest::Url` field is modelled by its serialized string. -/
structure ForecastRequest where
  api_key : String
  latitude : ℚ
  longitude : ℚ
  url : String
  exclude : List ExcludeBlock
  extend : Option ExtendBy
  lang : Option Lang
  units : Option Units
deriving DecidableEq, Repr

/-- Rust struct `ForecastRequestBuilder` (src/lib.rs lines 190–200). -/
structure ForecastRequestBuilder where
  api_key : String
  latitude : ℚ
  longitude : ℚ
  exclude : List ExcludeBlock
  extend : Option ExtendBy
  lang : Option Lang
  units : Option Units
deriving DecidableEq, Repr

/-- `ForecastRequestBuilder::new` (src/lib.rs lines 205–215). -/
def ForecastRequestBuilder.new (api_key : String) (latitude longitude : ℚ) :
    ForecastRequestBuilder :=
  { api_key := api_key, latitude := latitude, longitude := longitude,
    exclude := [], extend := none, lang := none, units := none }

/-- `ForecastRequestBuilder::exclude_block` (src/lib.rs lines 218–221):
pushes one block onto the exclude list. -/
def ForecastRequestBuilder.exclude_block (b : ForecastRequestBuilder)
    (x : ExcludeBlock) : ForecastRequestBuilder :=
  { b with exclude := b.exclude ++ [x] }

/-- `ForecastRequestBuilder::exclude_blocks` (src/lib.rs lines 224–228):
`Vec::append` moves every element of the source vector onto the end of
the exclude list, leaving the source empty.  The mutated source is
returned as the second component. -/
def ForecastRequestBuilder.exclude_blocks (b : ForecastRequestBuilder)
    (xs : List ExcludeBlock) : ForecastRequestBuilder × List ExcludeBlock :=
  ({ b with exclude := b.exclude ++ xs }, [])

/-- `ForecastRequestBuilder::extend` (src/lib.rs lines 232–235); named
`setExtend` here because the structure field is already called `extend`. -/
def ForecastRequestBuilder.setExtend (b : ForecastRequestBuilder)
    (e : ExtendBy) : ForecastRequestBuilder :=
  { b with extend := some e }

/-- `ForecastRequestBuilder::lang` (src/lib.rs lines 238–241). -/
def ForecastRequestBuilder.setLang (b : ForecastRequestBuilder)
    (l : Lang) : ForecastRequestBuilder :=
  { b with lang := some l }

/-- `ForecastRequestBuilder::units` (src/lib.rs lines 244–247). -/
def ForecastRequestBuilder.setUnits (b : ForecastRequestBuilder)
    (u : Units) : ForecastRequestBuilder :=
  { b with units := some u }

/-- The query pairs `ForecastRequestBuilder::build_url` (src/lib.rs lines
277–311) appends: the comma-joined exclude tokens when the exclude list
is non-empty, then the optional extend, lang and units tokens, in that
order.  `serde_json::to_string(e).trim_matches(quote)` is the bare serde
rename token, i.e. `encode`. -/
def ForecastRequestBuilder.queryPairs (b : ForecastRequestBuilder) :
    List (String × String) :=
  (if b.exclude.isEmpty then []
   else [(EXCLUDE, String.intercalate "," (b.exclude.map ExcludeBlock.encode))])
  ++ (match b.extend with
      | some e => [(EXTEND, e.encode)]
      | none => [])
  ++ (match b.lang with
      | some l => [(LANG, l.encode)]
      | none => [])
  ++ (match b.units with
      | some u => [(UNITS, u.encode)]
      | none => [])

/-- The path-and-authority part `ForecastRequestBuilder::build_url`
(src/lib.rs lines 264–270) formats:
`{base}/{key}/{lat:.16},{long:.16}`. -/
def ForecastRequestBuilder.pathString (b : ForecastRequestBuilder) : String :=
  FORECAST_URL ++ "/" ++ b.api_key ++ "/" ++ fmtFixed16 b.latitude ++ ","
    ++ fmtFixed16 b.longitude

/-- `ForecastRequestBuilder::build_url` (src/lib.rs lines 263–315): the
formatted path, then the query appended through `query_pairs_mut` (which
always leaves a `?`, even when no pair is appended). -/
def ForecastRequestBuilder.build_url (b : ForecastRequestBuilder) : String :=
  b.pathString ++ "?" ++ serializeQueryPairs b.queryPairs

/-- `ForecastRequestBuilder::build` (src/lib.rs lines 250–261). -/
def ForecastRequestBuilder.build (b : ForecastRequestBuilder) : ForecastRequest :=
  { api_key := b.api_key, latitude := b.latitude, longitude := b.longitude,
    url := b.build_url, exclude := b.exclude, extend := b.extend,
    lang := b.lang, units := b.units }

/-- Rust struct `TimeMachineRequest` (src/lib.rs lines 318–353). -/
structure TimeMachineRequest where
  api_key : String
  latitude : ℚ
  longitude : ℚ
  time : Nat
  url : String
  exclude : List ExcludeBlock
  lang : Option Lang
  units : Option Units
deriving DecidableEq, Repr

/-- Rust struct `TimeMachineRequestBuilder` (src/lib.rs lines 355–365). -/
structure TimeMachineRequestBuilder where
  api_key : String
  latitude : ℚ
  longitude : ℚ
  time : Nat
  exclude : List ExcludeBlock
  lang : Option Lang
  units : Option Units
deriving DecidableEq, Repr

/-- `TimeMachineRequestBuilder::new` (src/lib.rs lines 370–385). -/
def TimeMachineRequestBuilder.new (api_key : String) (latitude longitude : ℚ)
    (time : Nat) : TimeMachineRequestBuilder :=
  { api_key := api_key, latitude := latitude, longitude := longitude,
    time := time, exclude := [], lang := none, units := none }

/-- `TimeMachineRequestBuilder::exclude_block` (src/lib.rs lines 388–391). -/
def TimeMachineRequestBuilder.exclude_block (b : TimeMachineRequestBuilder)
    (x : ExcludeBlock) : TimeMachineRequestBuilder :=
  { b with exclude := b.exclude ++ [x] }

/-- `TimeMachineRequestBuilder::exclude_blocks` (src/lib.rs lines 394–400):
as for the forecast builder, `Vec::append` drains the source. -/
def TimeMachineRequestBuilder.exclude_blocks (b : TimeMachineRequestBuilder)
    (xs : List ExcludeBlock) : TimeMachineRequestBuilder × List ExcludeBlock :=
  ({ b with exclude := b.exclude ++ xs }, [])

/-- `TimeMachineRequestBuilder::lang` (src/lib.rs lines 403–406). -/
def TimeMachineRequestBuilder.setLang (b : TimeMachineRequestBuilder)
    (l : Lang) : TimeMachineRequestBuilder :=
  { b with lang := some l }

/-- `TimeMachineRequestBuilder::units` (src/lib.rs lines 409–412). -/
def TimeMachineRequestBuilder.setUnits (b : TimeMachineRequestBuilder)
    (u : Units) : TimeMachineRequestBuilder :=
  { b with units := some u }

/-- The query pairs `TimeMachineRequestBuilder::build_url` (src/lib.rs
lines 443–470) appends: exclude, lang, units — no extend. -/
def TimeMachineRequestBuilder.queryPairs (b : TimeMachineRequestBuilder) :
    List (String × String) :=
  (if b.exclude.isEmpty then []
   else [(EXCLUDE, String.intercalate "," (b.exclude.map ExcludeBlock.encode))])
  ++ (match b.lang with
      | some l => [(LANG, l.encode)]
      | none => [])
  ++ (match b.units with
      | some u => [(UNITS, u.encode)]
      | none => [])

/-- The path part `TimeMachineRequestBuilder::build_url` (src/lib.rs lines
429–436) formats: `{base}/{key}/{lat:.16},{long:.16},{time}`. -/
def TimeMachineRequestBuilder.pathString (b : TimeMachineRequestBuilder) : String :=
  FORECAST_URL ++ "/" ++ b.api_key ++ "/" ++ fmtFixed16 b.latitude ++ ","
    ++ fmtFixed16 b.longitude ++ "," ++ natStr b.time

/-- `TimeMachineRequestBuilder::build_url` (src/lib.rs lines 428–474). -/
def TimeMachineRequestBuilder.build_url (b : TimeMachineRequestBuilder) : String :=
  b.pathString ++ "?" ++ serializeQueryPairs b.queryPairs

/-- `TimeMachineRequestBuilder::build` (src/lib.rs lines 415–426). -/
def TimeMachineRequestBuilder.build (b : TimeMachineRequestBuilder) : TimeMachineRequest :=
  { api_key := b.api_key, latitude := b.latitude, longitude := b.longitude,
    time := b.time, url := b.build_url, exclude := b.exclude,
    lang := b.lang, units := b.units }

/-! ### Configuration-call sequences

The spec quantifies over the order of the builder's configuration calls;
these small op languages range over exactly the chained calls the two
builders expose. -/

/-- One configuration call on a `ForecastRequestBuilder`. -/
inductive ForecastOp where
  | exclBlock (x : ExcludeBlock)
  | exclBlocks (xs : List ExcludeBlock)
  | opExtend (e : ExtendBy)
  | opLang (l : Lang)
  | opUnits (u : Units)

/-- Apply one configuration call. -/
def applyForecastOp (b : ForecastRequestBuilder) : ForecastOp → ForecastRequestBuilder
  | .exclBlock x => b.exclude_block x
  | .exclBlocks xs => (b.exclude_blocks xs).1
  | .opExtend e => b.setExtend e
  | .opLang l => b.setLang l
  | .opUnits u => b.setUnits u

/-- Apply a sequence of configuration calls, first call first. -/
def applyForecastOps (ops : List ForecastOp) (b : ForecastRequestBuilder) :
    ForecastRequestBuilder :=
  ops.foldl applyForecastOp b

/-- One configuration call on a `TimeMachineRequestBuilder`. -/
inductive TimeMachineOp where
  | exclBlock (x : ExcludeBlock)
  | exclBlocks (xs : List ExcludeBlock)
  | opLang (l : Lang)
  | opUnits (u : Units)

/-- Apply one configuration call. -/
def applyTimeMachineOp (b : TimeMachineRequestBuilder) :
    TimeMachineOp → TimeMachineRequestBuilder
  | .exclBlock x => b.exclude_block x
  | .exclBlocks xs => (b.exclude_blocks xs).1
  | .opLang l => b.setLang l
  | .opUnits u => b.setUnits u

/-- Apply a sequence of configuration calls, first call first. -/
def applyTimeMachineOps (ops : List TimeMachineOp) (b : TimeMachineRequestBuilder) :
    TimeMachineRequestBuilder :=
  ops.foldl applyTimeMachineOp b

/-- One exclude-adding call (`exclude_block` or `exclude_blocks`). -/
inductive ExcludeCall where
  | one (x : ExcludeBlock)
  | many (xs : List ExcludeBlock)

/-- The blocks supplied by one exclude-adding call. -/
def ExcludeCall.blocks : ExcludeCall → List ExcludeBlock
  | .one x => [x]
  | .many xs => xs

/-- The blocks supplied by a sequence of exclude-adding calls, in call
order. -/
def suppliedBlocks (calls : List ExcludeCall) : List ExcludeBlock :=
  (calls.map ExcludeCall.blocks).flatten

/-- Apply a sequence of exclude-adding calls to a forecast builder. -/
def applyExcludeCalls (calls : List ExcludeCall) (b : ForecastRequestBuilder) :
    ForecastRequestBuilder :=
  calls.foldl (fun b c =>
    match c with
    | .one x => b.exclude_block x
    | .many xs => (b.exclude_blocks xs).1) b

/-! ### Claim-statement predicates and concrete witness inputs -/

/-- The shape the spec requires of a `{:.16}`-formatted coordinate: an
integer part containing no decimal point, then the decimal point, then
exactly 16 digits. -/
def HasFixed16Fraction (s : String) : Prop :=
  ∃ a b : String, s = a ++ "." ++ b ∧ b.length = 16 ∧
    b.data.all Char.isDigit = true ∧ a.data.contains '.' = false
/-- The exact rational value of the `f64` literal `6.66`
(`7498493379571876 * 2^-50`, reduced). -/
def lat666 : ℚ := ⟨1874623344892969, 281474976710656, by norm_num, by norm_num⟩
/-- The exact rational value of the `f64` literal `66.6`
(`4686558362232422 * 2^-46`, reduced). -/
def long666 : ℚ := ⟨2343279181116211, 35184372088832, by norm_num, by norm_num⟩
/-- The end-to-end forecast scenario of spec §8: api key `some_api_key`,
latitude `6.66`, longitude `66.6`, excludes `[Hourly, Daily, Alerts]`
(added as one `exclude_block` call followed by one `exclude_blocks`
call, as in the repository's tests), extend `Hourly`, lang `Arabic`,
units `Imperial`. -/
def scenarioBuilder : ForecastRequestBuilder :=
  ((((((ForecastRequestBuilder.new "some_api_key" lat666 long666).exclude_block
      .Hourly).exclude_blocks [.Daily, .Alerts]).1.setExtend .Hourly).setLang
      .Arabic).setUnits .Imperial)
/-- An api key of alphanumeric or `_` characters, which `Url::parse`
passes through a path segment unchanged (the modelling hypothesis under
which `build_url` is the plain concatenation the Rust code formats). -/
def urlSafeKey (s : String) : Bool := s.data.all fun c => c.isAlphanum || c == '_'

/-! ### Helper lemmas -/

theorem lookup_isSome_iff {α : Type} (l : List (String × α)) (s : String) :
    (l.lookup s).isSome ↔ s ∈ l.map Prod.fst := by
  induction l with
  | nil => simp [List.lookup]
  | cons p t ih =>
    by_cases h : s = p.1
    · simp [List.lookup, h]
    · have hb : (s == p.1) = false := beq_false_of_ne h
      simp [List.lookup, hb, h, ih]

theorem digitChar_isDigit (d : Nat) : (digitChar d).isDigit := by
  have h : d % 10 < 10 := Nat.mod_lt _ (by norm_num)
  unfold digitChar
  set k := d % 10 with hk
  interval_cases k <;> decide

theorem natDigitsAux_digits (fuel : Nat) :
    ∀ n c, c ∈ natDigitsAux fuel n → c.isDigit := by
  induction fuel with
  | zero => intro n c hc; simp [natDigitsAux] at hc
  | succ f ih =>
    intro n c hc
    by_cases h : n < 10
    · simp [natDigitsAux, h] at hc
      exact hc ▸ digitChar_isDigit n
    · simp [natDigitsAux, h] at hc
      rcases hc with hc | hc
      · exact ih _ _ hc
      · exact hc ▸ digitChar_isDigit (n % 10)

theorem fmtFixed16_shape (x : ℚ) : HasFixed16Fraction (fmtFixed16 x) := by
  refine ⟨(if x.num < 0 then "-" else "")
      ++ natStr (roundHalfEvenNat (x.num.natAbs * 10 ^ 16) x.den / 10 ^ 16),
    String.mk (fracDigits16 (roundHalfEvenNat (x.num.natAbs * 10 ^ 16) x.den % 10 ^ 16)),
    rfl, ?_, ?_, ?_⟩
  · simp [fracDigits16]
  · simp only [List.all_eq_true]
    intro c hc
    simp only [fracDigits16, List.mem_map] at hc
    rcases hc with ⟨i, -, rfl⟩
    exact digitChar_isDigit _
  · apply Bool.eq_false_iff.mpr
    intro hc
    rcases List.contains_iff_exists_mem_beq.mp hc with ⟨c, hm, hbeq⟩
    rw [← eq_of_beq hbeq] at hm
    rw [String.data_append] at hm
    rcases List.mem_append.mp hm with hm | hm
    · by_cases h : x.num < 0 <;> simp [h] at hm
    · have hd := natDigitsAux_digits _ _ _ (by simpa [natStr] using hm)
      exact absurd hd (by decide)

theorem forecast_names_sublist (b : ForecastRequestBuilder) :
    (b.queryPairs.map Prod.fst).Sublist [EXCLUDE, EXTEND, LANG, UNITS] := by
  unfold ForecastRequestBuilder.queryPairs
  by_cases he : b.exclude.isEmpty <;>
    rcases b.extend with _ | e <;> rcases b.lang with _ | l <;>
    rcases b.units with _ | u <;> simp [he]

theorem timemachine_names_sublist (b : TimeMachineRequestBuilder) :
    (b.queryPairs.map Prod.fst).Sublist [EXCLUDE, LANG, UNITS] := by
  unfold TimeMachineRequestBuilder.queryPairs
  by_cases he : b.exclude.isEmpty <;>
    rcases b.lang with _ | l <;> rcases b.units with _ | u <;> simp [he]

theorem applyExcludeCalls_eq (calls : List ExcludeCall) (b : ForecastRequestBuilder) :
    applyExcludeCalls calls b = { b with exclude := b.exclude ++ suppliedBlocks calls } := by
  induction calls generalizing b with
  | nil => simp [applyExcludeCalls, suppliedBlocks]
  | cons c t ih =>
    cases c with
    | one x =>
      have h := ih (b.exclude_block x)
      simp [applyExcludeCalls, List.foldl_cons] at h ⊢
      rw [h]
      simp [ForecastRequestBuilder.exclude_block, suppliedBlocks, ExcludeCall.blocks,
        List.append_assoc]
    | many xs =>
      have h := ih (b.exclude_blocks xs).1
      simp [applyExcludeCalls, List.foldl_cons] at h ⊢
      rw [h]
      simp [ForecastRequestBuilder.exclude_blocks, suppliedBlocks, ExcludeCall.blocks,
        List.append_assoc]

/-! ### The claims -/

/-- C1, counterexample: in the §8 end-to-end forecast scenario the query
string of the built URL is NOT the claimed literal
`exclude=hourly,daily,alerts&extend=hourly&lang=ar&units=us` — the
form-urlencoded serializer percent-encodes the commas of the joined
exclude value. -/
theorem c1_comma_counterexample :
    (serializeQueryPairs scenarioBuilder.queryPairs ==
      "exclude=hourly,daily,alerts&extend=hourly&lang=ar&units=us") = false := by
  decide

/-- C1, amended: in the §8 end-to-end forecast scenario the built URL is
exactly the base, key and 16-digit coordinates followed by the query
string `exclude=hourly%2Cdaily%2Calerts&extend=hourly&lang=ar&units=us`:
the comma-joined exclude value appears with its commas percent-encoded
as `%2C`, the other parameters exactly as claimed. -/
theorem c1_query_string_amended :
    scenarioBuilder.build.url =
      "https://api.pirateweather.net/forecast/some_api_key/6.6600000000000001,66.5999999999999943?exclude=hourly%2Cdaily%2Calerts&extend=hourly&lang=ar&units=us" := by
  decide

/-- C2: the `Lang` codec decodes both `no` and `nb` to `NorwegianBokmal`,
encodes `NorwegianBokmal` as `nb`, and never emits `no` for any
variant. -/
theorem c2_norwegian_alias :
    Lang.decode "no" = some Lang.NorwegianBokmal ∧
    Lang.decode "nb" = some Lang.NorwegianBokmal ∧
    Lang.encode Lang.NorwegianBokmal = "nb" ∧
    ∀ v : Lang, (Lang.encode v == "no") = false := by
  refine ⟨by decide, by decide, rfl, ?_⟩
  intro v; cases v <;> decide

/-- C3: decoding the encoding of every variant of the five wire enums
returns that variant. -/
theorem c3_roundtrip :
    (∀ v : ExcludeBlock, ExcludeBlock.decode v.encode = some v) ∧
    (∀ v : ExtendBy, ExtendBy.decode v.encode = some v) ∧
    (∀ v : Lang, Lang.decode v.encode = some v) ∧
    (∀ v : Units, Units.decode v.encode = some v) ∧
    (∀ v : Severity, Severity.decode v.encode = some v) := by
  refine ⟨?_, ?_, ?_, ?_, ?_⟩ <;> intro v <;> cases v <;> decide

/-- C4: every forecast URL is `{base}/{key}/{lat},{long}?{query}` and
every time-machine URL is `{base}/{key}/{lat},{long},{time}?{query}`,
with both coordinates rendered with exactly 16 digits after the decimal
point and the time as decimal digits. -/
theorem c4_path_fixed16 :
    (∀ b : ForecastRequestBuilder, urlSafeKey b.api_key = true →
      b.build_url = FORECAST_URL ++ "/" ++ b.api_key ++ "/" ++ fmtFixed16 b.latitude ++ ","
          ++ fmtFixed16 b.longitude ++ "?" ++ serializeQueryPairs b.queryPairs ∧
        HasFixed16Fraction (fmtFixed16 b.latitude) ∧
        HasFixed16Fraction (fmtFixed16 b.longitude)) ∧
    (∀ b : TimeMachineRequestBuilder, urlSafeKey b.api_key = true →
      b.build_url = FORECAST_URL ++ "/" ++ b.api_key ++ "/" ++ fmtFixed16 b.latitude ++ ","
          ++ fmtFixed16 b.longitude ++ "," ++ natStr b.time ++ "?"
          ++ serializeQueryPairs b.queryPairs ∧
        HasFixed16Fraction (fmtFixed16 b.latitude) ∧
        HasFixed16Fraction (fmtFixed16 b.longitude) ∧
        (natStr b.time).data.all Char.isDigit = true) := by
  constructor
  · intro b _
    exact ⟨rfl, fmtFixed16_shape _, fmtFixed16_shape _⟩
  · intro b _
    refine ⟨rfl, fmtFixed16_shape _, fmtFixed16_shape _, ?_⟩
    simp only [List.all_eq_true]
    intro c hc
    exact natDigitsAux_digits _ _ _ (by simpa [natStr] using hc)

/-- C4 witness: the forecast half of `c4_path_fixed16` at the concrete
builder with api key `some_api_key` and coordinates `6.66`, `66.6`. -/
theorem c4_path_fixed16_witness :
    (ForecastRequestBuilder.new "some_api_key" lat666 long666).build_url
        = FORECAST_URL ++ "/" ++ "some_api_key" ++ "/" ++ fmtFixed16 lat666 ++ ","
          ++ fmtFixed16 long666 ++ "?"
          ++ serializeQueryPairs
              (ForecastRequestBuilder.new "some_api_key" lat666 long666).queryPairs ∧
      HasFixed16Fraction (fmtFixed16 lat666) ∧
      HasFixed16Fraction (fmtFixed16 long666) :=
  c4_path_fixed16.1 (ForecastRequestBuilder.new "some_api_key" lat666 long666) (by decide)

/-- C5: whatever configuration calls were made, the names of the query
parameters present in a built request follow the fixed order
`exclude, extend, lang, units` (forecast) and `exclude, lang, units`
(time machine). -/
theorem c5_fixed_param_order :
    (∀ (ops : List ForecastOp) (k : String) (lat long : ℚ),
      ((applyForecastOps ops (ForecastRequestBuilder.new k lat long)).queryPairs.map
        Prod.fst).Sublist [EXCLUDE, EXTEND, LANG, UNITS]) ∧
    (∀ (ops : List TimeMachineOp) (k : String) (lat long : ℚ) (t : Nat),
      ((applyTimeMachineOps ops (TimeMachineRequestBuilder.new k lat long t)).queryPairs.map
        Prod.fst).Sublist [EXCLUDE, LANG, UNITS]) :=
  ⟨fun _ _ _ _ => forecast_names_sublist _,
   fun _ _ _ _ _ => timemachine_names_sublist _⟩

/-- C6: a builder with no optional field set contributes no query pairs
at all (its query string is empty), and a builder with an empty exclude
list never produces an `exclude` parameter. -/
theorem c6_absent_params_omitted :
    (∀ (k : String) (lat long : ℚ) (t : Nat),
      (ForecastRequestBuilder.new k lat long).queryPairs = [] ∧
      serializeQueryPairs (ForecastRequestBuilder.new k lat long).queryPairs = "" ∧
      (TimeMachineRequestBuilder.new k lat long t).queryPairs = [] ∧
      serializeQueryPairs (TimeMachineRequestBuilder.new k lat long t).queryPairs = "") ∧
    (∀ b : ForecastRequestBuilder, b.exclude = [] →
      (b.queryPairs.map Prod.fst).contains EXCLUDE = false) ∧
    (∀ b : TimeMachineRequestBuilder, b.exclude = [] →
      (b.queryPairs.map Prod.fst).contains EXCLUDE = false) := by
  refine ⟨fun k lat long t => ⟨rfl, rfl, rfl, rfl⟩, ?_, ?_⟩
  · rintro ⟨k, lat, long, excl, ext, lg, un⟩ h
    subst h
    rcases ext with _ | e <;> rcases lg with _ | l <;> rcases un with _ | u <;>
      simp [ForecastRequestBuilder.queryPairs, EXCLUDE, EXTEND, LANG, UNITS]
  · rintro ⟨k, lat, long, t, excl, lg, un⟩ h
    subst h
    rcases lg with _ | l <;> rcases un with _ | u <;>
      simp [TimeMachineRequestBuilder.queryPairs, EXCLUDE, LANG, UNITS]

/-- C6 witness: `c6_absent_params_omitted` at the default builders and at
a builder with language and units set but an empty exclude list. -/
theorem c6_absent_params_omitted_witness :
    ((ForecastRequestBuilder.new "some_api_key" lat666 long666).queryPairs = [] ∧
      serializeQueryPairs (ForecastRequestBuilder.new "some_api_key" lat666 long666).queryPairs
        = "" ∧
      (TimeMachineRequestBuilder.new "some_api_key" lat666 long666 666).queryPairs = [] ∧
      serializeQueryPairs
        (TimeMachineRequestBuilder.new "some_api_key" lat666 long666 666).queryPairs = "") ∧
    ((ForecastRequestBuilder.mk "some_api_key" lat666 long666 [] none (some .Arabic)
        (some .Imperial)).queryPairs.map Prod.fst).contains EXCLUDE = false :=
  ⟨c6_absent_params_omitted.1 "some_api_key" lat666 long666 666,
   c6_absent_params_omitted.2.1
     (ForecastRequestBuilder.mk "some_api_key" lat666 long666 [] none (some .Arabic)
       (some .Imperial)) rfl⟩

/-- C7: a sequence of `exclude_block`/`exclude_blocks` calls on a fresh
forecast builder leaves exactly the concatenation, in call order and
with duplicates, of the supplied blocks in the finalized request, and
the `exclude` query value is those blocks' tokens joined with commas in
that order (no pair at all when no block was supplied). -/
theorem c7_exclude_concatenation :
    ∀ (calls : List ExcludeCall) (k : String) (lat long : ℚ),
      ((applyExcludeCalls calls (ForecastRequestBuilder.new k lat long)).build).exclude
          = suppliedBlocks calls ∧
      (applyExcludeCalls calls (ForecastRequestBuilder.new k lat long)).queryPairs
          = (if suppliedBlocks calls = [] then []
             else [(EXCLUDE,
                String.intercalate "," ((suppliedBlocks calls).map ExcludeBlock.encode))]) := by
  intro calls k lat long
  rw [applyExcludeCalls_eq]
  constructor
  · simp [ForecastRequestBuilder.build, ForecastRequestBuilder.new]
  · by_cases h : suppliedBlocks calls = [] <;>
      simp [ForecastRequestBuilder.queryPairs, ForecastRequestBuilder.new, h]

/-- C8: builders whose fields agree produce byte-identical URLs. -/
theorem c8_build_deterministic :
    (∀ b₁ b₂ : ForecastRequestBuilder, b₁.api_key = b₂.api_key →
      b₁.latitude = b₂.latitude → b₁.longitude = b₂.longitude →
      b₁.exclude = b₂.exclude → b₁.extend = b₂.extend →
      b₁.lang = b₂.lang → b₁.units = b₂.units →
      b₁.build.url = b₂.build.url) ∧
    (∀ b₁ b₂ : TimeMachineRequestBuilder, b₁.api_key = b₂.api_key →
      b₁.latitude = b₂.latitude → b₁.longitude = b₂.longitude →
      b₁.time = b₂.time → b₁.exclude = b₂.exclude →
      b₁.lang = b₂.lang → b₁.units = b₂.units →
      b₁.build.url = b₂.build.url) := by
  constructor
  · rintro ⟨k₁, la₁, lo₁, e₁, x₁, g₁, u₁⟩ ⟨k₂, la₂, lo₂, e₂, x₂, g₂, u₂⟩
      rfl rfl rfl rfl rfl rfl rfl
    rfl
  · rintro ⟨k₁, la₁, lo₁, t₁, e₁, g₁, u₁⟩ ⟨k₂, la₂, lo₂, t₂, e₂, g₂, u₂⟩
      rfl rfl rfl rfl rfl rfl rfl
    rfl

/-- C8 witness: `c8_build_deterministic` at two definitionally distinct
builder expressions with identical field values. -/
theorem c8_build_deterministic_witness :
    (ForecastRequestBuilder.new "some_api_key" lat666 long666).build.url =
      (ForecastRequestBuilder.mk "some_api_key" lat666 long666 [] none none none).build.url :=
  c8_build_deterministic.1 _ _ rfl rfl rfl rfl rfl rfl rfl

/-- C9: each decoder succeeds exactly on its documented token set (for
`Lang` the set additionally holds the alias `no`) and fails with an
error (`none`) on every other string. -/
theorem c9_decode_exactly_token_set :
    (∀ s : String, (ExcludeBlock.decode s).isSome ↔
      s ∈ ["currently", "minutely", "hourly", "daily", "alerts", "flags"]) ∧
    (∀ s : String, (ExtendBy.decode s).isSome ↔ s ∈ ["hourly"]) ∧
    (∀ s : String, (Lang.decode s).isSome ↔
      s ∈ ["no", "ar", "az", "be", "bg", "bs", "ca", "cz", "da", "de", "el", "en",
        "es", "et", "fi", "fr", "hr", "hu", "id", "is", "it", "ja", "ka", "ko",
        "kw", "nb", "nl", "pl", "pt", "ro", "ru", "sk", "sl", "sr", "sv", "tet",
        "tr", "uk", "x-pig-latin", "zh", "zh-tw"]) ∧
    (∀ s : String, (Units.decode s).isSome ↔ s ∈ ["auto", "ca", "uk2", "us", "si"]) ∧
    (∀ s : String, (Severity.decode s).isSome ↔ s ∈ ["advisory", "watch", "warning"]) := by
  refine ⟨?_, ?_, ?_, ?_, ?_⟩ <;> intro s
  · rw [ExcludeBlock.decode, lookup_isSome_iff]; rfl
  · rw [ExtendBy.decode, lookup_isSome_iff]; rfl
  · by_cases h : s = "no"
    · simp [Lang.decode, h]
    · rw [Lang.decode, if_neg h, lookup_isSome_iff]
      simp [List.mem_cons, h, Lang.table]
  · rw [Units.decode, lookup_isSome_iff]; rfl
  · rw [Severity.decode, lookup_isSome_iff]; rfl

/-- C10: on either builder, `exclude_blocks` drains the caller's source
collection (it comes back empty), appends its former elements in order
after the blocks already accumulated, and leaves every other field of
the builder unchanged. -/
theorem c10_exclude_blocks_drains_source :
    (∀ (b : ForecastRequestBuilder) (xs : List ExcludeBlock),
      (b.exclude_blocks xs).2 = [] ∧
      (b.exclude_blocks xs).1.exclude = b.exclude ++ xs ∧
      (b.exclude_blocks xs).1.api_key = b.api_key ∧
      (b.exclude_blocks xs).1.latitude = b.latitude ∧
      (b.exclude_blocks xs).1.longitude = b.longitude ∧
      (b.exclude_blocks xs).1.extend = b.extend ∧
      (b.exclude_blocks xs).1.lang = b.lang ∧
      (b.exclude_blocks xs).1.units = b.units) ∧
    (∀ (b : TimeMachineRequestBuilder) (xs : List ExcludeBlock),
      (b.exclude_blocks xs).2 = [] ∧
      (b.exclude_blocks xs).1.exclude = b.exclude ++ xs ∧
      (b.exclude_blocks xs).1.api_key = b.api_key ∧
      (b.exclude_blocks xs).1.latitude = b.latitude ∧
      (b.exclude_blocks xs).1.longitude = b.longitude ∧
      (b.exclude_blocks xs).1.time = b.time ∧
      (b.exclude_blocks xs).1.lang = b.lang ∧
      (b.exclude_blocks xs).1.units = b.units) :=
  ⟨fun _ _ => ⟨rfl, rfl, rfl, rfl, rfl, rfl, rfl, rfl⟩,
   fun _ _ => ⟨rfl, rfl, rfl, rfl, rfl, rfl, rfl, rfl⟩⟩

end ForecastRs
